import Mathlib

/-!
Shallow embedding of the announcarr source (src/main.rs, src/irc_client.rs,
src/web_api.rs) and proofs about its claims.

Modelling conventions:
* Rust `HashSet<SeenItem>` becomes `Finset SeenItem`.
* The durable seen-items file becomes either a `Finset SeenItem` (its record
  set, for the announce pipeline) or an `Option (List SeenItem)` (presence and
  contents, for `load_seen_ids`, where `none` is a nonexistent file).
* External transport outcomes (whether a `send_privmsg` / `send_pong` /
  file write succeeds) are oracle `Bool`/`Except` parameters: the code only
  branches on them.
* IRC stream items `Result<Message, irc::error::Error>` become
  `Except IrcError Message`; a scripted inbound sequence is a finite
  `List (Except IrcError Message)`, the stream closing after the list ends.
-/

namespace Announcarr

/-- Rust `SeenItem` from src/irc_client.rs lines 16-20: the persisted identity of
an announced item, an (id, bumped_at) pair. -/
structure SeenItem where
  id : String
  bumped_at : String
deriving DecidableEq, Repr

/-- Rust `Attributes` from src/web_api.rs lines 16-29 (display fields of an item).
`internal : u8` and `size : u64` become `Nat`. -/
structure Attributes where
  category : String
  type : String
  name : String
  resolution : Option String
  freeleech : String
  internal : Nat
  double_upload : Bool
  size : Nat
  uploader : String
  download_link : String
  bumped_at : String
deriving DecidableEq, Repr

/-- Rust `ApiItem` from src/web_api.rs lines 10-14. -/
structure ApiItem where
  id : String
  attributes : Attributes
deriving DecidableEq, Repr

/-- The `SeenItem` built from an item in `should_announce` (irc_client.rs
lines 180-183) and `mark_as_announced` (lines 223-226). -/
def toSeen (item : ApiItem) : SeenItem :=
  { id := item.id, bumped_at := item.attributes.bumped_at }

/-- The state of the Seen-Item Store: the in-memory set `seen_ids` behind the
mutex, and the record set currently held by the durable file
(`announced_file`). -/
structure ClientState where
  seen_ids : Finset SeenItem
  fileRecords : Finset SeenItem
deriving DecidableEq

/-- Rust `should_announce` from src/irc_client.rs lines 179-199, acting on the
locked in-memory set: returns `false` on an exact (id, bumped_at) match;
otherwise drops every record with the same id (`seen.retain`) and returns
`true`. It performs no file I/O. -/
def should_announce (item : ApiItem) (seen : Finset SeenItem) :
    Bool × Finset SeenItem :=
  let seen_item := toSeen item
  if seen_item ∈ seen then
    (false, seen)
  else
    (true, seen.filter (fun s => s.id ≠ seen_item.id))

/-- Rust `save_seen_ids` from src/irc_client.rs lines 157-177: rewrites the durable
file with the full in-memory set. `writeOk` is the oracle for the file
open/write succeeding; on failure the file keeps its old records. -/
def save_seen_ids (writeOk : Bool) (st : ClientState) : ClientState :=
  if writeOk then { st with fileRecords := st.seen_ids } else st

/-- Rust `mark_as_announced` from src/irc_client.rs lines 222-237: inserts the
(id, bumped_at) record into the in-memory set (a plain `HashSet::insert`,
no removal of other records for the id), then calls `save_seen_ids`;
a save failure is only logged. -/
def mark_as_announced (writeOk : Bool) (item : ApiItem) (st : ClientState) :
    ClientState :=
  save_seen_ids writeOk { st with seen_ids := insert (toSeen item) st.seen_ids }

/-- Rust `verify_connected` from src/irc_client.rs lines 120-134: sends a PONG and
reports whether that transport send succeeded (`pongOk` is the oracle). -/
def verify_connected (pongOk : Bool) : Bool :=
  if pongOk then true else false

/-- Rust `send_message` from src/irc_client.rs lines 201-220: formats the item,
sends it with `send_privmsg` (`sendOk` oracle; a failure propagates via `?`),
then calls `verify_connected` (`pongOk` oracle); on a failed check it returns
an error without touching the store, and only on a successful check does it
call `mark_as_announced` (`writeOk` oracle for the durable rewrite). -/
def send_message (sendOk pongOk writeOk : Bool) (item : ApiItem)
    (st : ClientState) : Except String Unit × ClientState :=
  if sendOk = false then
    (Except.error "send_privmsg failed", st)
  else if verify_connected pongOk = false then
    (Except.error "Message failed to send to channel", st)
  else
    (Except.ok (), mark_as_announced writeOk item st)

/-- The per-item body of the poll branch in src/main.rs lines 59-63:
`if irc_client.should_announce(&message).await { let _ =
irc_client.send_message(message).await; }` — the send result is discarded. -/
def announceCycle (sendOk pongOk writeOk : Bool) (item : ApiItem)
    (st : ClientState) : ClientState :=
  let r := should_announce item st.seen_ids
  let st1 : ClientState := { st with seen_ids := r.2 }
  if r.1 then (send_message sendOk pongOk writeOk item st1).2 else st1

/-- A durable seen-items file: `none` when the file does not exist, otherwise
the list of records it holds (assumed well-formed JSON). -/
abbrev FsState := Option (List SeenItem)

/-- Rust std semantics of `OpenOptions::new().write(true).truncate(true)`
(no `.create(true)`), as used in src/irc_client.rs lines 139-142: opening a
nonexistent path fails with NotFound; an existing file is truncated. -/
def openWriteTruncate (fs : FsState) : Except String FsState :=
  match fs with
  | none => Except.error "NotFound"
  | some _ => Except.ok (some [])

/-- Rust `load_seen_ids` from src/irc_client.rs lines 136-155: when the file does
not exist, it opens it write+truncate (without the create flag) to write an
empty list, any error propagating via `?`; when it exists, its records are
collected into the set. Returns the result together with the resulting file
state. -/
def load_seen_ids (fs : FsState) : Except String (Finset SeenItem) × FsState :=
  match fs with
  | none =>
      match openWriteTruncate none with
      | Except.error e => (Except.error e, none)
      | Except.ok _ => (Except.ok ∅, some [])
  | some items => (Except.ok items.toFinset, some items)

/-- The `seen_ids` initialization inside `IrcClient::new`, src/irc_client.rs
lines 42-48: a `load_seen_ids` failure is logged and replaced by an empty
in-memory set; the file is not touched further. -/
def initSeenIds (fs : FsState) : Finset SeenItem × FsState :=
  match load_seen_ids fs with
  | (Except.ok ids, fs2) => (ids, fs2)
  | (Except.error _, fs2) => (∅, fs2)

/-! ## The handshake (Session Manager), src/irc_client.rs `connect` -/

/-- The slice of the irc crate's `Response` enum the code inspects:
`RPL_WELCOME` (001) versus anything else (carried as its numeric code). -/
inductive Resp where
  | RPL_WELCOME
  | otherResp (code : Nat)
deriving DecidableEq, Repr

/-- The slice of the irc crate's `Command` enum matched by `connect`:
numeric responses carry their `Vec<String>` arguments, `NOTICE` carries
(target, content), `PING` carries (server, optional extra); every other
command kind is `OTHER`. -/
inductive Command where
  | RESPONSE (resp : Resp) (args : List String)
  | NOTICE (target content : String)
  | PING (server : String) (extra : Option String)
  | OTHER
deriving DecidableEq, Repr

/-- An inbound message: the irc crate's `Message` with its optional prefix
(the sender, here `source`) and command; `connect` only ever destructures
`message.command`. -/
structure Message where
  source : Option String
  command : Command
deriving DecidableEq, Repr

/-- A transport-level error carried by the inbound stream
(`irc::error::Error`). -/
inductive IrcError where
  | err (msg : String)
deriving DecidableEq, Repr

/-- A message the client sends out during the handshake. -/
inductive OutMsg where
  | pong (server : String)
  | privmsg (target text : String)
  | join (chan : String)
  | oper (name pass : String)
deriving DecidableEq, Repr

/-- Rust `str::contains` (substring search), on the character lists. -/
def containsSub (s pat : String) : Bool :=
  decide (pat.data <:+: s.data)

/-- The configuration fields `connect` reads (src/config.rs `IrcConfig`). -/
structure ConnectConfig where
  nickname : String
  password : String
  ns_password : String
  channel : String
  oper : Option Bool
deriving DecidableEq, Repr

/-- Phase 1 of `connect` (src/irc_client.rs lines 67-80): waiting for
registration. Each stream error propagates via `?`; `RPL_WELCOME` breaks the
loop, leaving the rest of the stream; a `PING` is answered with a PONG as a
side effect; everything else is skipped. Exhaustion of the stream exits the
`while let` normally, yielding the (empty) remainder. Returns the remaining
script together with the messages sent. -/
def waitWelcome : List (Except IrcError Message) →
    Except IrcError (List (Except IrcError Message)) × List OutMsg
  | [] => (Except.ok [], [])
  | Except.error e :: _ => (Except.error e, [])
  | Except.ok m :: rest =>
    match m.command with
    | Command.RESPONSE Resp.RPL_WELCOME _ => (Except.ok rest, [])
    | Command.PING server _ =>
        let r := waitWelcome rest
        (r.1, OutMsg.pong server :: r.2)
    | _ => waitWelcome rest

/-- The loop-body test of phase 2 (src/irc_client.rs lines 89-94): the loop
breaks exactly on a `NOTICE` whose content contains "Password accepted";
the bound target (and the message's sender) are never inspected. -/
def nickservAccepts (m : Message) : Bool :=
  match m.command with
  | Command.NOTICE _ content => containsSub content "Password accepted"
  | _ => false

/-- Phase 2 of `connect` (src/irc_client.rs lines 86-95): waiting for the
NickServ confirmation. Stream errors propagate; the loop body sends nothing
(in particular it does not answer PING); stream exhaustion exits normally. -/
def waitNickserv : List (Except IrcError Message) →
    Except IrcError (List (Except IrcError Message)) × List OutMsg
  | [] => (Except.ok [], [])
  | Except.error e :: _ => (Except.error e, [])
  | Except.ok m :: rest =>
      if nickservAccepts m then (Except.ok rest, [])
      else waitNickserv rest

/-- The loop-body test of phase 3 (src/irc_client.rs lines 103-104): breaks
on any numeric response whose argument vector contains the exact element
"End of /NAMES list." (Rust `Vec::contains`, element equality). -/
def endOfNames (m : Message) : Bool :=
  match m.command with
  | Command.RESPONSE _ args => args.contains "End of /NAMES list."
  | _ => false

/-- Phase 3 of `connect` (src/irc_client.rs lines 100-116): waiting for the
end of the NAMES list. Stream errors propagate; the loop body sends nothing.
Returns `some rest` when the marker was seen (the `return Ok(())` inside the
loop) and `none` when the stream was exhausted (falling through to the final
`Ok(())` on line 117). -/
def waitJoin : List (Except IrcError Message) →
    Except IrcError (Option (List (Except IrcError Message))) × List OutMsg
  | [] => (Except.ok none, [])
  | Except.error e :: _ => (Except.error e, [])
  | Except.ok m :: rest =>
      if endOfNames m then (Except.ok (some rest), [])
      else waitJoin rest

/-- Rust `connect` from src/irc_client.rs lines 62-118, run against a scripted
inbound sequence: identify, wait for welcome, identify with NickServ, wait
for the confirmation notice, join, wait for the end-of-names marker (sending
OPER on success when configured). The client's own transport sends are
modelled as succeeding; the result is the returned `irc::error::Result<()>`
paired with all messages sent. -/
def connect (cfg : ConnectConfig) (script : List (Except IrcError Message)) :
    Except IrcError Unit × List OutMsg :=
  match waitWelcome script with
  | (Except.error e, outs) => (Except.error e, outs)
  | (Except.ok rest1, outs1) =>
    let identifyMsg :=
      OutMsg.privmsg "NickServ"
        ("IDENTIFY " ++ cfg.nickname ++ " " ++ cfg.ns_password)
    match waitNickserv rest1 with
    | (Except.error e, outs2) => (Except.error e, outs1 ++ identifyMsg :: outs2)
    | (Except.ok rest2, outs2) =>
      let outsA := outs1 ++ identifyMsg :: outs2 ++ [OutMsg.join cfg.channel]
      match waitJoin rest2 with
      | (Except.error e, outs3) => (Except.error e, outsA ++ outs3)
      | (Except.ok none, outs3) => (Except.ok (), outsA ++ outs3)
      | (Except.ok (some _), outs3) =>
          if cfg.oper = some true then
            (Except.ok (),
              outsA ++ outs3 ++ [OutMsg.oper cfg.nickname cfg.password])
          else
            (Except.ok (), outsA ++ outs3)

/-! ## The event loop (Scheduler), src/main.rs `main` -/

/-- The rate-limit check and timestamp update of the poll branch
(src/main.rs lines 53-69): fetch when at least 30 seconds have elapsed since
`last_api_call` (`Instant::duration_since`, saturating), and record `now` as
the new `last_api_call` exactly then. Instants are seconds as `Nat`.
Returns (fetch attempted?, new `last_api_call`). -/
def rateLimitedFetch (last now : Nat) : Bool × Nat :=
  if 30 ≤ now - last then (true, now) else (false, last)

/-- The per-fetch item loop of src/main.rs lines 59-63, with each item's
transport oracles (sendOk, pongOk, writeOk). -/
def processItems : List (ApiItem × Bool × Bool × Bool) → ClientState →
    ClientState
  | [], st => st
  | (item, sendOk, pongOk, writeOk) :: rest, st =>
      processItems rest (announceCycle sendOk pongOk writeOk item st)

/-- One event serviced by the `tokio::select!` loop of src/main.rs lines
46-77: an inbound stream item, a poll-timer tick (carrying the instant and
the fetched items with their oracles — a failed fetch is already an empty
list, src/web_api.rs `fetch_messages`), or a connection-check tick with its
probe outcome. -/
inductive LoopEvent where
  | inbound (msg : Except IrcError Message)
  | pollTick (now : Nat) (items : List (ApiItem × Bool × Bool × Bool))
  | connCheck (pongOk : Bool)

/-- The mutable state of `main`'s loop: the Seen-Item Store and the
`last_api_call` instant. -/
structure LoopState where
  client : ClientState
  last_api_call : Nat
deriving DecidableEq

/-- One iteration of the `main` loop (src/main.rs lines 46-77). An inbound
`Ok` message is printed (no state change); an inbound `Err` propagates out of
`main` through `message?` (line 49); a poll tick runs the rate-limited fetch
and announces each item, discarding per-item send errors; a connection-check
tick calls `verify_connected` and ignores its result. -/
def loopStep (ev : LoopEvent) (st : LoopState) : Except IrcError LoopState :=
  match ev with
  | LoopEvent.inbound (Except.error e) => Except.error e
  | LoopEvent.inbound (Except.ok _) => Except.ok st
  | LoopEvent.pollTick now items =>
      let r := rateLimitedFetch st.last_api_call now
      if r.1 then
        Except.ok { client := processItems items st.client,
                    last_api_call := r.2 }
      else
        Except.ok { st with last_api_call := r.2 }
  | LoopEvent.connCheck pongOk =>
      let _ := verify_connected pongOk
      Except.ok st

/-! ## Concrete sample inputs used by witnesses and counterexamples -/

/-- Predicate picking the PONG replies out of a handshake transcript. -/
def isPong : OutMsg → Bool
  | OutMsg.pong _ => true
  | _ => false

/-- Sample display attributes; only `bumped_at` enters the announced
identity. -/
def attrs1 : Attributes :=
  { category := "c", type := "t", name := "n", resolution := none,
    freeleech := "0", internal := 0, double_upload := false, size := 0,
    uploader := "u", download_link := "d", bumped_at := "f2" }

/-- Sample item: id "1", freshness marker "f2". -/
def item1 : ApiItem := { id := "1", attributes := attrs1 }

/-- Sample store state: both the in-memory set and the durable file hold the
single record ("1", "f1") — the same id as `item1` with an older marker. -/
def st0 : ClientState := ⟨{⟨"1", "f1"⟩}, {⟨"1", "f1"⟩}⟩

/-- Sample store state: empty store. -/
def stE : ClientState := ⟨∅, ∅⟩

/-- Sample connection configuration. -/
def cfg0 : ConnectConfig :=
  { nickname := "nick", password := "pw", ns_password := "ns",
    channel := "#chan", oper := none }

/-- Scripted inbound sequence delivering a keepalive PING while `connect`
is in its NickServ-confirmation wait (after the welcome, before the
accepted notice), then completing the handshake. -/
def script5 : List (Except IrcError Message) :=
  [Except.ok ⟨none, Command.RESPONSE Resp.RPL_WELCOME []⟩,
   Except.ok ⟨none, Command.PING "srv" none⟩,
   Except.ok ⟨some "NickServ", Command.NOTICE "nick" "Password accepted for nick"⟩,
   Except.ok ⟨none, Command.RESPONSE (Resp.otherResp 366) ["End of /NAMES list."]⟩]

/-! ## Theorems -/

/-- Helper: `save_seen_ids` never changes the in-memory set, whatever the
write outcome. -/
theorem save_seen_ids_seen_ids (w : Bool) (st : ClientState) :
    (save_seen_ids w st).seen_ids = st.seen_ids := by
  cases w <;> rfl

/-- C2: `should_announce` returns `false` iff the exact (id, bumped_at)
record is in the seen set; when it returns `true`, every record sharing the
item's id has been removed from the in-memory set (it becomes the filter of
the old set), and when it returns `false` the set is unchanged. -/
theorem should_announce_spec (item : ApiItem) (seen : Finset SeenItem) :
    ((should_announce item seen).1 = false ↔ toSeen item ∈ seen)
    ∧ ((should_announce item seen).1 = true →
        (should_announce item seen).2
            = seen.filter (fun s => s.id ≠ item.id)
        ∧ ∀ s ∈ (should_announce item seen).2, s.id ≠ item.id)
    ∧ ((should_announce item seen).1 = false →
        (should_announce item seen).2 = seen) := by
  by_cases h : (⟨item.id, item.attributes.bumped_at⟩ : SeenItem) ∈ seen
  · simp [should_announce, toSeen, h]
  · simp [should_announce, toSeen, h]

/-- Witness for C2 at `item1` and the set {("1","f1")}: no exact match, so
the result is `true` and the stale same-id record is dropped. -/
theorem should_announce_spec_witness :
    (should_announce item1 st0.seen_ids).1 = true
    ∧ (should_announce item1 st0.seen_ids).2
        = st0.seen_ids.filter (fun s => s.id ≠ item1.id) :=
  ⟨by decide, ((should_announce_spec item1 st0.seen_ids).2.1 (by decide)).1⟩

/-- C1: with the privmsg send succeeding, `send_message` commits the item's
record to the in-memory store iff the `verify_connected` probe performed
right after the send succeeds; on a failed probe it returns the error
"Message failed to send to channel" and leaves the whole store state (memory
and durable file) unchanged, so an item absent from the store stays absent. -/
theorem send_message_commit_iff_probe (item : ApiItem) (st : ClientState)
    (pongOk writeOk : Bool)
    (habs : toSeen item ∉ st.seen_ids)
    (habsF : toSeen item ∉ st.fileRecords) :
    (toSeen item ∈ (send_message true pongOk writeOk item st).2.seen_ids
        ↔ pongOk = true)
    ∧ (pongOk = true →
        (send_message true pongOk writeOk item st).1 = Except.ok ()
        ∧ (send_message true pongOk writeOk item st).2.seen_ids
            = insert (toSeen item) st.seen_ids)
    ∧ (pongOk = false →
        (send_message true pongOk writeOk item st).1
            = Except.error "Message failed to send to channel"
        ∧ (send_message true pongOk writeOk item st).2 = st
        ∧ toSeen item ∉ (send_message true pongOk writeOk item st).2.seen_ids
        ∧ toSeen item ∉ (send_message true pongOk writeOk item st).2.fileRecords) := by
  cases pongOk <;> cases writeOk <;>
    simp [send_message, verify_connected, mark_as_announced, save_seen_ids,
      habs, habsF]

/-- Witness for C1 at `item1` and the empty store with a successful probe:
the call returns `Ok` and the record is inserted. -/
theorem send_message_commit_iff_probe_witness :
    (send_message true true true item1 stE).1 = Except.ok ()
    ∧ (send_message true true true item1 stE).2.seen_ids
        = insert (toSeen item1) stE.seen_ids :=
  (send_message_commit_iff_probe item1 stE true true (by decide)
    (by decide)).2.1 rfl

/-- Counterexample to C3: `mark_as_announced` alone does not remove the
existing record for the item's id. Committing `item1` = ("1","f2") from the
state holding ("1","f1") leaves both records, i.e. two records with id "1",
not exactly one. -/
theorem mark_as_announced_keeps_stale_record :
    toSeen item1 = ⟨"1", "f2"⟩
    ∧ st0.seen_ids = {⟨"1", "f1"⟩}
    ∧ (⟨"1", "f1"⟩ : SeenItem) ∈ (mark_as_announced true item1 st0).seen_ids
    ∧ (⟨"1", "f2"⟩ : SeenItem) ∈ (mark_as_announced true item1 st0).seen_ids
    ∧ ((mark_as_announced true item1 st0).seen_ids.filter
        (fun s => s.id = "1")).card = 2 := by
  decide

/-- C3 as amended: `mark_as_announced` itself only inserts; the removal of
same-id records happens beforehand in `should_announce`, so after the
announce pipeline (`should_announce` returning `true`, send and probe
succeeding, then `mark_as_announced`) the store holds the new record and it
is the only record with that id. -/
theorem announce_pipeline_unique_id (item : ApiItem) (st : ClientState)
    (writeOk : Bool) (h : (should_announce item st.seen_ids).1 = true) :
    toSeen item ∈ (announceCycle true true writeOk item st).seen_ids
    ∧ ∀ s ∈ (announceCycle true true writeOk item st).seen_ids,
        s.id = item.id → s = toSeen item := by
  have habs : toSeen item ∉ st.seen_ids := by
    intro hc
    simp [should_announce, hc] at h
  have hres : (announceCycle true true writeOk item st).seen_ids
      = insert (toSeen item)
          (st.seen_ids.filter (fun s => s.id ≠ (toSeen item).id)) := by
    simp [announceCycle, should_announce, habs, send_message,
      verify_connected, mark_as_announced, save_seen_ids_seen_ids]
  rw [hres]
  refine ⟨Finset.mem_insert_self _ _, ?_⟩
  intro s hs hid
  rcases Finset.mem_insert.mp hs with h1 | h1
  · exact h1
  · exact absurd hid (Finset.mem_filter.mp h1).2

/-- Witness for C3's amended claim: announcing ("1","f2") over the state
holding ("1","f1") yields a store whose only id-"1" record is the new one. -/
theorem announce_pipeline_unique_id_witness :
    toSeen item1 ∈ (announceCycle true true true item1 st0).seen_ids
    ∧ ∀ s ∈ (announceCycle true true true item1 st0).seen_ids,
        s.id = item1.id → s = toSeen item1 :=
  announce_pipeline_unique_id item1 st0 true (by decide)

/-- C10: when no exact match exists, the announce cycle removes all same-id
records from the in-memory set even though the send (or the probe after it)
fails, and that removal is not undone; the durable file is not rewritten, so
memory and file can diverge until the next successful commit. -/
theorem announce_cycle_frame_on_failure (item : ApiItem) (st : ClientState)
    (sendOk pongOk writeOk : Bool)
    (habs : toSeen item ∉ st.seen_ids)
    (hfail : sendOk = false ∨ pongOk = false) :
    (announceCycle sendOk pongOk writeOk item st).seen_ids
        = st.seen_ids.filter (fun s => s.id ≠ item.id)
    ∧ (announceCycle sendOk pongOk writeOk item st).fileRecords
        = st.fileRecords := by
  have habs' : (⟨item.id, item.attributes.bumped_at⟩ : SeenItem) ∉ st.seen_ids := habs
  rcases hfail with hf | hf <;> subst hf
  · simp [announceCycle, should_announce, habs', send_message, toSeen]
  · cases sendOk <;>
      simp [announceCycle, should_announce, habs', send_message,
        verify_connected, toSeen]

/-- Witness for C10: from the state where both memory and file hold
("1","f1"), a cycle for ("1","f2") whose probe fails leaves the in-memory
set without any id-"1" record while the file still holds the stale record —
the two have diverged. -/
theorem announce_cycle_frame_on_failure_witness :
    ((announceCycle true false true item1 st0).seen_ids
        = st0.seen_ids.filter (fun s => s.id ≠ item1.id)
      ∧ (announceCycle true false true item1 st0).fileRecords
        = st0.fileRecords)
    ∧ (announceCycle true false true item1 st0).seen_ids = ∅
    ∧ (announceCycle true false true item1 st0).fileRecords = {⟨"1", "f1"⟩} :=
  ⟨announce_cycle_frame_on_failure item1 st0 true false true (by decide)
      (Or.inr rfl),
    by decide, by decide⟩

/-- C4 (failing input): when the inbound stream closes before any handshake
event — the empty script — every `while let` loop in `connect` exhausts
normally and the function falls through to the final `Ok(())`, returning
success after sending the NickServ IDENTIFY and the JOIN, without ever
having observed a welcome, an accepted notice, or an end-of-names marker. -/
theorem connect_ok_on_closed_stream :
    connect cfg0 []
      = (Except.ok (),
         [OutMsg.privmsg "NickServ" "IDENTIFY nick ns",
          OutMsg.join "#chan"]) := rfl

/-- Counterexample to C5: running `connect` on `script5`, which delivers a
PING while the client waits for the NickServ confirmation, completes the
handshake without a single PONG in the transcript — the keepalive is not
answered in the authentication-wait phase. -/
theorem ping_unanswered_in_auth_wait :
    script5.get? 1 = some (Except.ok ⟨none, Command.PING "srv" none⟩)
    ∧ (connect cfg0 script5).1 = Except.ok ()
    ∧ (connect cfg0 script5).2.filter isPong = [] :=
  ⟨rfl, rfl, rfl⟩

/-- C5 as amended: a PING is answered with a PONG only while waiting for the
welcome (registration phase); the authentication-wait and join-wait loops
send nothing at all, so PINGs received there go unanswered. -/
theorem keepalive_only_during_registration :
    (∀ (src : Option String) (server : String) (extra : Option String)
        (rest : List (Except IrcError Message)),
      (waitWelcome (Except.ok ⟨src, Command.PING server extra⟩ :: rest)).2
        = OutMsg.pong server :: (waitWelcome rest).2)
    ∧ (∀ script, (waitNickserv script).2 = [])
    ∧ (∀ script, (waitJoin script).2 = []) := by
  refine ⟨fun src server extra rest => rfl, ?_, ?_⟩
  · intro script
    induction script with
    | nil => rfl
    | cons e rest ih =>
        cases e with
        | error e => rfl
        | ok m =>
            by_cases h : nickservAccepts m <;> simp [waitNickserv, h, ih]
  · intro script
    induction script with
    | nil => rfl
    | cons e rest ih =>
        cases e with
        | error e => rfl
        | ok m =>
            by_cases h : endOfNames m <;> simp [waitJoin, h, ih]

/-- C6 (failing input): at startup with no durable file present,
`load_seen_ids` opens the path write+truncate without the create flag, which
fails with NotFound; it returns an error and creates no file, and
`IrcClient::new` then falls back to an empty in-memory set with the file
still absent. -/
theorem load_seen_ids_missing_file_errors :
    load_seen_ids none = (Except.error "NotFound", none)
    ∧ initSeenIds none = (∅, none) :=
  ⟨rfl, rfl⟩

/-- Counterexample to C7: an error delivered by the inbound stream inside
the event loop is rethrown by `message?` (src/main.rs line 49) and so
propagates out of `main`, terminating the process. -/
theorem loop_stream_error_terminates :
    loopStep (LoopEvent.inbound (Except.error (IrcError.err "stream error")))
        ⟨st0, 0⟩
      = Except.error (IrcError.err "stream error") := rfl

/-- C7 as amended: after the handshake, a poll tick (whatever the fetched
items and their send/probe/write outcomes — a failed fetch is an empty item
list), a connection-check tick (whatever the probe outcome), and any inbound
`Ok` message are all absorbed by the loop; only an inbound stream error
escapes the iteration and terminates `main`. -/
theorem loop_step_containment :
    (∀ (m : Message) (st : LoopState),
      loopStep (LoopEvent.inbound (Except.ok m)) st = Except.ok st)
    ∧ (∀ (now : Nat) (items : List (ApiItem × Bool × Bool × Bool))
        (st : LoopState),
      (loopStep (LoopEvent.pollTick now items) st).isOk = true)
    ∧ (∀ (pongOk : Bool) (st : LoopState),
      loopStep (LoopEvent.connCheck pongOk) st = Except.ok st)
    ∧ (∀ (e : IrcError) (st : LoopState),
      loopStep (LoopEvent.inbound (Except.error e)) st = Except.error e) := by
  refine ⟨fun m st => rfl, ?_, fun p st => rfl, fun e st => rfl⟩
  intro now items st
  by_cases h : (rateLimitedFetch st.last_api_call now).1 <;>
    simp [loopStep, h, Except.isOk, Except.toBool]

/-- C8: on a poll tick the fetch fires iff at least 30 seconds (the minimum
fetch interval) have elapsed since `last_api_call`, the recorded timestamp
becomes the tick's instant exactly when a fetch is attempted — independently
of the items the fetch returns — and of two ticks the first of which
fetches, the second fetches iff it comes at least 30 seconds later. -/
theorem poll_rate_limit (last t1 t2 : Nat) :
    ((rateLimitedFetch last t1).1 = true ↔ 30 ≤ t1 - last)
    ∧ (rateLimitedFetch last t1).2 = (if 30 ≤ t1 - last then t1 else last)
    ∧ (∀ (now : Nat) (items : List (ApiItem × Bool × Bool × Bool))
        (st : LoopState),
      (loopStep (LoopEvent.pollTick now items) st).map
          (fun s => s.last_api_call)
        = Except.ok (rateLimitedFetch st.last_api_call now).2)
    ∧ (30 ≤ t1 - last → t2 - t1 < 30 →
        rateLimitedFetch last t1 = (true, t1)
        ∧ rateLimitedFetch (rateLimitedFetch last t1).2 t2 = (false, t1))
    ∧ (30 ≤ t1 - last → 30 ≤ t2 - t1 →
        rateLimitedFetch last t1 = (true, t1)
        ∧ rateLimitedFetch (rateLimitedFetch last t1).2 t2 = (true, t2)) := by
  refine ⟨?_, ?_, ?_, ?_, ?_⟩
  · by_cases h : 30 ≤ t1 - last <;> simp [rateLimitedFetch, h]
  · by_cases h : 30 ≤ t1 - last <;> simp [rateLimitedFetch, h]
  · intro now items st
    by_cases h : 30 ≤ now - st.last_api_call <;>
      simp [loopStep, rateLimitedFetch, h, Except.map]
  · intro h1 h2
    have h2' : ¬ 30 ≤ t2 - t1 := Nat.not_le.mpr h2
    simp [rateLimitedFetch, h1, h2']
  · intro h1 h2
    simp [rateLimitedFetch, h1, h2]

/-- Witness for C8 at last = 0 with ticks at 30 and 45 seconds: the first
tick fetches (30 elapsed), the second comes 15 seconds later and is
rate-limited, leaving the timestamp at 30. -/
theorem poll_rate_limit_witness :
    rateLimitedFetch 0 30 = (true, 30)
    ∧ rateLimitedFetch (rateLimitedFetch 0 30).2 45 = (false, 30) :=
  (poll_rate_limit 0 30 45).2.2.2.1 (by decide) (by decide)

/-- C9: in the authentication-wait phase, the loop consumes events until
`nickservAccepts` holds, and `nickservAccepts` is true exactly for a NOTICE
whose content contains the substring "Password accepted" — the notice's
target and sender are never inspected, and no other command kind advances
the phase. -/
theorem nickserv_advance_iff :
    (∀ (m : Message) (rest : List (Except IrcError Message)),
      waitNickserv (Except.ok m :: rest)
        = if nickservAccepts m then (Except.ok rest, ([] : List OutMsg))
          else waitNickserv rest)
    ∧ (∀ m : Message, nickservAccepts m = true ↔
        ∃ target content, m.command = Command.NOTICE target content
          ∧ containsSub content "Password accepted" = true)
    ∧ (∀ (src src2 : Option String) (t t2 c : String),
        nickservAccepts ⟨src, Command.NOTICE t c⟩
          = nickservAccepts ⟨src2, Command.NOTICE t2 c⟩) := by
  refine ⟨fun m rest => rfl, ?_, fun src src2 t t2 c => rfl⟩
  intro m
  cases hm : m.command <;> simp [nickservAccepts, hm]
  constructor
  · intro h
    exact ⟨_, _, ⟨rfl, rfl⟩, h⟩
  · rintro ⟨t, c, ⟨ht, hc⟩, h⟩
    subst hc
    exact h

end Announcarr
